import Mathlib

/-!
Verification development for the Reina-Shop checkout component
(src/components/Checkout.tsx).  The definitions below are a shallow
embedding of the checkout state manager and the order-message composer:
pure functions of the source become Lean functions, React state updates
become explicit state-passing over a `CheckoutState` record, browser
storage becomes an explicit record of optional string slots, and the
JSON round-trip through `localStorage` (always applied to flat string
maps / string lists) is modelled as the identity on the stored value.
-/

namespace ReinaShop

/-- `CustomField` from src/types: key, label, placeholder, required flag. -/
structure CustomField where
  key : String
  label : String
  placeholder : String
  required : Bool
deriving DecidableEq, Repr

/-- The selected variation of a cart item (only its name is used by the
message composer). -/
structure Variation where
  name : String
deriving DecidableEq, Repr

/-- `CartItem`: id is the composite cart-instance identifier
("menuItemId:::CART:::timestamp-random"), `totalPrice` is the per-unit
price that the composer multiplies by `quantity`. -/
structure CartItem where
  id : String
  name : String
  quantity : Nat
  totalPrice : Nat
  selectedVariation : Option Variation
  customFields : Option (List CustomField)
deriving DecidableEq, Repr

/-- `PaymentMethod` as consumed by Checkout. -/
structure PaymentMethod where
  uuid_id : String
  name : String
  account_number : String
  account_name : String
deriving DecidableEq, Repr

/-- Order status enumeration (`OrderStatus` in src/types): pending-like
states plus the two terminal states compared against in Checkout. -/
inductive OrderStatus where
  | pending
  | approved
  | rejected
deriving DecidableEq, Repr

/-- An order as returned by the backend (only the parts Checkout reads). -/
structure Order where
  id : String
  status : OrderStatus
deriving DecidableEq, Repr

/-- A JS string-keyed record (`Record<string, string>`), modelled as an
association list where an insert prepends and a lookup takes the first
match, so a later insert shadows an earlier one exactly like the JS
spread `{...prev, [k]: v}`. -/
abbrev Store := List (String × String)

/-- Record lookup `m[k]`: `none` plays the role of `undefined`. -/
def storeLookup (m : Store) (k : String) : Option String :=
  (m.find? (fun e => decide (e.1 = k))).map (·.2)

/-- Record update `{...m, [k]: v}`. -/
def storeInsert (k v : String) (m : Store) : Store :=
  (k, v) :: m

/-- JS truthiness of a `string | null | undefined` value: `null`,
`undefined` and `""` are falsy. -/
def jsTruthyS (v : Option String) : Bool :=
  match v with
  | some s => decide (s ≠ "")
  | none => false

/-- Whitespace as JS `String.prototype.trim` strips it (the characters
relevant to form input). -/
def isSpaceChar (c : Char) : Bool :=
  c = ' ' || c = '\t' || c = '\n' || c = '\r'

/-- JS `s.trim()`: strip leading and trailing whitespace. -/
def jsTrim (s : String) : String :=
  String.mk (((s.toList.dropWhile isSpaceChar).reverse.dropWhile isSpaceChar).reverse)

/-- JS truthiness of `v?.trim()`: the guard used by `isDetailsValid`
(`customFieldValues[k]?.trim() || false`). -/
def trimTruthy (v : Option String) : Bool :=
  match v with
  | some s => !(jsTrim s).isEmpty
  | none => false

/-- The cart-instance separator `':::CART:::'` as a character list. -/
def cartSep : List Char := ":::CART:::".toList

/-- First occurrence of a (nonempty) separator in a character list:
returns the text before and after the first match, `none` when the
separator does not occur.  This is the behaviour of
`s.split(sep)` restricted to what line 171-174 uses:
`parts.length > 1 ? parts[0] : s`. -/
def splitFirst (sep : List Char) : List Char → Option (List Char × List Char)
  | [] => none
  | c :: t =>
    if sep.isPrefixOf (c :: t) then some ([], (c :: t).drop sep.length)
    else
      match splitFirst sep t with
      | some p => some (c :: p.1, p.2)
      | none => none

/-- `getOriginalMenuItemId` (Checkout.tsx lines 171-174): the substring
before the first `':::CART:::'`, or the id unchanged when the separator
is absent. -/
def getOriginalMenuItemId (cartItemId : String) : String :=
  match splitFirst cartSep cartItemId.toList with
  | some p => String.mk p.1
  | none => cartItemId

/-- `item.customFields && item.customFields.length > 0` (line 181). -/
def hasFields (item : CartItem) : Bool :=
  match item.customFields with
  | some fs => !fs.isEmpty
  | none => false

/-- The `Map`-based dedup of lines 183-190: keep the first item for each
original menu item id, in insertion order. -/
def dedupeByOriginalId : List CartItem → List String → List CartItem
  | [], _ => []
  | i :: rest, seen =>
    if getOriginalMenuItemId i.id ∈ seen then dedupeByOriginalId rest seen
    else i :: dedupeByOriginalId rest (getOriginalMenuItemId i.id :: seen)

/-- `itemsWithCustomFields` (lines 180-191): field-bearing cart items
deduplicated by original menu item id. -/
def itemsWithCustomFields (cartItems : List CartItem) : List CartItem :=
  dedupeByOriginalId (cartItems.filter hasFields) []

/-- `hasAnyCustomFields = itemsWithCustomFields.length > 0` (line 193). -/
def hasAnyCustomFields (cartItems : List CartItem) : Bool :=
  !(itemsWithCustomFields cartItems).isEmpty

/-- The composite value key used by the form inputs (line 765), the bulk
sync effect (line 250), `isDetailsValid` (line 639) and the order
payload (line 589): original id, field position index, field key. -/
def formValueKey (originalId : String) (fieldIndex : Nat) (fieldKey : String) : String :=
  originalId ++ "_" ++ toString fieldIndex ++ "_" ++ fieldKey

/-- The lookup key used by `generateOrderMessage` (line 341): original
id and field key only — the position index is absent there. -/
def msgValueKey (originalId : String) (fieldKey : String) : String :=
  originalId ++ "_" ++ fieldKey

/-- The label/value pairs the composer collects for one item
(lines 340-344): map each field to its looked-up value (empty string for
a missing entry) and keep only truthy values. -/
def itemFieldsFor (m : Store) (item : CartItem) : List (String × String) :=
  (item.customFields.getD []).filterMap (fun f =>
    let v := (storeLookup m (msgValueKey (getOriginalMenuItemId item.id) f.key)).getD ""
    if v = "" then none else some (f.label, v))

/-- The grouping key of lines 348-349: `label:value` pairs joined by `|`. -/
def groupKeyOf (fs : List (String × String)) : String :=
  String.intercalate "|" (fs.map (fun f => f.1 ++ ":" ++ f.2))

/-- One entry of the `gamesByFieldValues` map: key, game names, fields. -/
abbrev GroupT := String × List String × List (String × String)

/-- `Map.set`/`games.push` of lines 351-354: append the name to the
existing group for this key (keeping the first group's fields), or add a
new group at the end — JS `Map` preserves insertion order. -/
def insertGroup : List GroupT → String → String → List (String × String) → List GroupT
  | [], k, n, fs => [(k, [n], fs)]
  | g :: rest, k, n, fs =>
    if g.1 = k then (g.1, g.2.1 ++ [n], g.2.2) :: rest
    else g :: insertGroup rest k n fs

/-- The `itemsWithCustomFields.forEach` of lines 337-355 with the group
map threaded explicitly: items whose collected fields are empty are
skipped. -/
def buildGroupsAux (m : Store) : List CartItem → List GroupT → List GroupT
  | [], gs => gs
  | item :: rest, gs =>
    let fs := itemFieldsFor m item
    buildGroupsAux m rest
      (if fs.isEmpty then gs else insertGroup gs (groupKeyOf fs) item.name fs)

def buildGroups (m : Store) (items : List CartItem) : List GroupT :=
  buildGroupsAux m items []

/-- Last index of a character, JS `String.lastIndexOf` on the labels
line (line 369); `none` stands for -1. -/
def lastIdxAux (c : Char) : List Char → Nat → Option Nat
  | [], _ => none
  | x :: t, i =>
    match lastIdxAux c t (i + 1) with
    | some j => some j
    | none => if x = c then some i else none

def lastIdxOf (c : Char) (l : List Char) : Option Nat :=
  lastIdxAux c l 0

/-- Lines 369-372: replace the last `,` of the joined labels by ` &`
(`labels.substring(0, i) + ' &' + labels.substring(i + 1)`), only when
the last comma index is positive. -/
def combineLabels (labels : String) : String :=
  match lastIdxOf ',' labels.toList with
  | some j =>
    if 0 < j then
      String.mk (labels.toList.take j ++ (" &").toList ++ labels.toList.drop (j + 1))
    else labels
  | none => labels

/-- The per-group answer line of lines 365-378: one combined
`A, B & C: value` line when every value agrees and there is more than
one field, otherwise `label: value` pairs joined by `, `. -/
def answerLineOf (fs : List (String × String)) : String :=
  match fs with
  | [] => ""
  | f0 :: _ =>
    if fs.all (fun f => f.2 == f0.2) && decide (1 < fs.length) then
      combineLabels (String.intercalate ", " (fs.map (·.1))) ++ ": " ++ f0.2
    else
      String.intercalate ", " (fs.map (fun f => f.1 ++ ": " ++ f.2))

/-- The `gamesByFieldValues.forEach` of lines 358-379: for each group,
push the game names joined by newlines and then the answer line,
skipping groups with no games or no fields. -/
def sectionsOf : List GroupT → List String
  | [] => []
  | g :: rest =>
    if g.2.1.isEmpty || g.2.2.isEmpty then sectionsOf rest
    else String.intercalate "\n" g.2.1 :: answerLineOf g.2.2 :: sectionsOf rest

/-- The custom-fields section of the message (lines 331-386): grouped
blocks when any item has custom fields, otherwise the fallback IGN line
from `customFieldValues['default_ign'] || ''`. -/
def customFieldsSectionOf (cartItems : List CartItem) (m : Store) : String :=
  if hasAnyCustomFields cartItems then
    let secs := sectionsOf (buildGroups m (itemsWithCustomFields cartItems))
    if secs.isEmpty then "" else String.intercalate "\n" secs
  else
    "🎮 IGN: " ++ ((storeLookup m "default_ign").getD "")

/-- `paymentMethods.find(method => method.uuid_id === paymentMethodUuid)`
(line 282): `null` matches nothing. -/
def selectedPaymentMethod (pms : List PaymentMethod) (u : Option String) : Option PaymentMethod :=
  match u with
  | some uid => pms.find? (fun pm => decide (pm.uuid_id = uid))
  | none => none

/-- One order line (lines 394-401): name, optional variation, quantity
and line total. -/
def orderLineOf (item : CartItem) : String :=
  let base := "• " ++ item.name
  let base :=
    match item.selectedVariation with
    | some v => base ++ " (" ++ v.name ++ ")"
    | none => base
  base ++ " x" ++ toString item.quantity ++ " - ₱" ++ toString (item.totalPrice * item.quantity)

/-- `generateOrderMessage` (lines 330-413): the trimmed fixed template. -/
def generateOrderMessage (cartItems : List CartItem) (totalPrice : Nat)
    (pms : List PaymentMethod) (paymentMethodUuid : Option String)
    (receiptImageUrl : Option String) (m : Store) : String :=
  let spmName := ((selectedPaymentMethod pms paymentMethodUuid).map (·.name)).getD ""
  ("\n🛒 Reina Shop ORDER\n\n"
    ++ customFieldsSectionOf cartItems m
    ++ "\n\n📋 ORDER DETAILS:\n"
    ++ String.intercalate "\n" (cartItems.map orderLineOf)
    ++ "\n\n💰 TOTAL: ₱" ++ toString totalPrice
    ++ "\n\n💳 Payment: " ++ spmName
    ++ "\n\n📸 Payment Receipt: " ++ (receiptImageUrl.getD "")
    ++ "\n\nPlease confirm this order to proceed. Thank you for choosing Reina Shop! 🎮\n    ")
    |> jsTrim

/-- Number of (possibly overlapping) occurrences of a pattern in a
character list. -/
def countOccAux (pat : List Char) : List Char → Nat
  | [] => 0
  | c :: t => (if pat.isPrefixOf (c :: t) then 1 else 0) + countOccAux pat t

/-- Occurrence count of `pat` inside `s`. -/
def countOccurrences (s pat : String) : Nat :=
  countOccAux pat.toList s.toList

/-- The transient checkout state owned by the component (the `useState`
slots of lines 87-130; the `File` is represented by its name). -/
structure CheckoutState where
  paymentMethodUuid : Option String
  customFieldValues : Store
  receiptFile : Option String
  receiptImageUrl : Option String
  receiptPreview : Option String
  receiptError : Option String
  copied : Bool
  hasCopiedMessage : Bool
  bulkInputValues : List (Nat × String)
  bulkSelectedGames : List String
  orderId : Option String
  isOrderModalOpen : Bool
  isPlacingOrder : Bool
  existingOrderStatus : Option OrderStatus
deriving Repr

/-- `handleReceiptRemove` (lines 321-327). -/
def handleReceiptRemove (s : CheckoutState) : CheckoutState :=
  { s with
    receiptFile := none
    receiptImageUrl := none
    receiptPreview := none
    receiptError := none
    hasCopiedMessage := false }

/-- `handleBulkGameSelectionChange` (lines 288-296): converts the cart
item id to the original menu item id before touching the selection. -/
def handleBulkGameSelectionChange (itemId : String) (checked : Bool)
    (prev : List String) : List String :=
  if checked then prev ++ [getOriginalMenuItemId itemId]
  else prev.filter (fun g => decide (g ≠ getOriginalMenuItemId itemId))

/-- The selected items of the bulk section (lines 201-203 and 233-235):
items of `itemsWithCustomFields` whose original id is bulk-selected. -/
def selectedBulkItems (cartItems : List CartItem) (bulkSelectedGames : List String) :
    List CartItem :=
  (itemsWithCustomFields cartItems).filter
    (fun i => decide (getOriginalMenuItemId i.id ∈ bulkSelectedGames))

/-- `bulkInputFields` (lines 197-224): one `(index, field?)` entry per
position up to the maximum field count of the selected items, labels
taken from the first selected item (`|| null` when it lacks the
position). -/
def bulkInputFields (cartItems : List CartItem) (bulkSelectedGames : List String) :
    List (Nat × Option CustomField) :=
  if bulkSelectedGames.isEmpty then []
  else
    match selectedBulkItems cartItems bulkSelectedGames with
    | [] => []
    | ref :: rest =>
      let maxFields :=
        ((ref :: rest).map (fun i => (i.customFields.getD []).length)).foldl Nat.max 0
      if maxFields = 0 then []
      else (List.range maxFields).map (fun i => (i, (ref.customFields.getD [])[i]?))

/-- The bulk sync effect (lines 227-260): for each bulk entry (the keys
of `bulkInputValues` are the decimal positions written by
`handleBulkInputChange`, modelled as `Nat`), write the value through the
item-position-key composite for every selected item that has a field at
that position; the `findIndex !== -1` guard of line 248 is the `any`
below. -/
def bulkSyncUpdates (cartItems : List CartItem) (bulkSelectedGames : List String)
    (bulkInputValues : List (Nat × String)) : Store :=
  if bulkSelectedGames.isEmpty then []
  else
    bulkInputValues.foldl (fun updates iv =>
      (selectedBulkItems cartItems bulkSelectedGames).foldl (fun updates item =>
        match (item.customFields.getD [])[iv.1]? with
        | some field =>
          if (itemsWithCustomFields cartItems).any
              (fun j => decide (getOriginalMenuItemId j.id = getOriginalMenuItemId item.id)) then
            storeInsert (formValueKey (getOriginalMenuItemId item.id) iv.1 field.key) iv.2 updates
          else updates
        | none => updates) updates) []

/-- Applying the bulk sync effect to the field value map
(`setCustomFieldValues(prev => ({...prev, ...updates}))`, lines 257-259):
the updates shadow previous entries. -/
def applyBulkSync (cartItems : List CartItem) (bulkSelectedGames : List String)
    (bulkInputValues : List (Nat × String)) (cfv : Store) : Store :=
  let u := bulkSyncUpdates cartItems bulkSelectedGames bulkInputValues
  if u.isEmpty then cfv else u ++ cfv

/-- `isDetailsValid` (lines 626-643): fallback IGN must be non-blank
when no item has custom fields, otherwise every required field of every
field-bearing item must be non-blank under the indexed composite key. -/
def isDetailsValid (cartItems : List CartItem) (m : Store) : Bool :=
  if !hasAnyCustomFields cartItems then
    trimTruthy (storeLookup m "default_ign")
  else
    (itemsWithCustomFields cartItems).all (fun item =>
      match item.customFields with
      | none => true
      | some fs =>
        fs.enum.all (fun p =>
          !p.2.required
            || trimTruthy (storeLookup m
                  (formValueKey (getOriginalMenuItemId item.id) p.1 p.2.key))))

/-- The `disabled` condition of the direct place-order button
(line 999). -/
def placeOrderDirectDisabled (paymentMethodUuid receiptImageUrl : Option String)
    (uploadingReceipt isPlacingOrder : Bool) : Bool :=
  !jsTruthyS paymentMethodUuid || !jsTruthyS receiptImageUrl
    || uploadingReceipt || isPlacingOrder

/-- The payload handed to `createOrder` (lines 604-610). -/
structure OrderPayload where
  order_items : List CartItem
  customer_info : Store
  payment_method_id : String
  receipt_url : String
  total_price : Nat
deriving Repr

/-- The `customerInfo` construction of lines 577-601: payment method
name, then either every truthy custom-field value keyed by label (read
through the indexed composite key) or the fallback IGN. -/
def buildCustomerInfo (cartItems : List CartItem) (m : Store) (pmName : String) : Store :=
  let base := storeInsert "Payment Method" pmName []
  if hasAnyCustomFields cartItems then
    (itemsWithCustomFields cartItems).foldl (fun ci item =>
      (item.customFields.getD []).enum.foldl (fun ci p =>
        match storeLookup m
            (formValueKey (getOriginalMenuItemId item.id) p.1 p.2.key) with
        | some v => if v = "" then ci else storeInsert p.2.label v ci
        | none => ci) ci) base
  else
    match storeLookup m "default_ign" with
    | some v => if v = "" then base else storeInsert "IGN" v base
    | none => base

/-- `handlePlaceOrder` (lines 538-554, messenger mode): guard on a
truthy payment method uuid and receipt url, else set the field error and
do nothing; on success open the deep link (the browser-provided
`encodeURIComponent` is abstracted as `enc`).  The second component is
the opened url, `none` when nothing was opened. -/
def handlePlaceOrder (pms : List PaymentMethod) (cartItems : List CartItem)
    (totalPrice : Nat) (enc : String → String) (s : CheckoutState) :
    CheckoutState × Option String :=
  if !jsTruthyS s.paymentMethodUuid then
    ({ s with receiptError := some "Please select a payment method" }, none)
  else if !jsTruthyS s.receiptImageUrl then
    ({ s with receiptError := some "Please upload your payment receipt before placing the order" }, none)
  else
    (s, some ("https://m.me/779999235186541?text="
        ++ enc (generateOrderMessage cartItems totalPrice pms
              s.paymentMethodUuid s.receiptImageUrl s.customFieldValues)))

/-- `handlePlaceOrderDirect` (lines 556-624): the three guards, then the
payload construction and the `createOrder` call, whose outcome is the
`created` parameter (`error` = the call threw, `ok none` = no order
returned, `ok (some o)` = created).  The second component is the payload
passed to `createOrder`, `none` when no backend call was made. -/
def handlePlaceOrderDirect (pms : List PaymentMethod) (cartItems : List CartItem)
    (totalPrice : Nat) (created : Except Unit (Option Order)) (s : CheckoutState) :
    CheckoutState × Option OrderPayload :=
  if !jsTruthyS s.paymentMethodUuid then
    ({ s with receiptError := some "Please select a payment method" }, none)
  else if !jsTruthyS s.receiptImageUrl then
    ({ s with receiptError := some "Please upload your payment receipt before placing the order" }, none)
  else
    match selectedPaymentMethod pms s.paymentMethodUuid with
    | none => ({ s with receiptError := some "Please select a payment method" }, none)
    | some pm =>
      let payload : OrderPayload :=
        { order_items := cartItems
          customer_info := buildCustomerInfo cartItems s.customFieldValues pm.name
          payment_method_id := pm.uuid_id
          receipt_url := s.receiptImageUrl.getD ""
          total_price := totalPrice }
      match created with
      | .error _ =>
        ({ s with receiptError := some "Failed to place order. Please try again."
                  isPlacingOrder := false }, some payload)
      | .ok none =>
        ({ s with receiptError := none, isPlacingOrder := false }, some payload)
      | .ok (some o) =>
        ({ s with receiptError := none
                  isPlacingOrder := false
                  orderId := some o.id
                  existingOrderStatus := some o.status
                  isOrderModalOpen := true }, some payload)

/-- `checkExistingOrder` (lines 511-536), as a function of the stored
order id and the fetch result: returns the stored id after the check,
the in-memory status flag and the in-memory order id (both mounted as
`null`). -/
def checkExistingOrder (stored : Option String) (fetch : String → Option Order) :
    Option String × Option OrderStatus × Option String :=
  match stored with
  | none => (none, none, none)
  | some sid =>
    match fetch sid with
    | some order =>
      if order.status = OrderStatus.approved then (none, none, none)
      else (some sid, some order.status, some order.id)
    | none => (none, none, none)

/-- One `localStorage.getItem` outcome: a value (`none` = key absent) or
a thrown exception (storage disabled). -/
inductive StoreRead where
  | ok (v : Option String)
  | thrown
deriving Repr

/-- A raw `localStorage.getItem(...)` call: a thrown read propagates. -/
def rawGetItem (r : StoreRead) : Except Unit (Option String) :=
  match r with
  | .ok v => .ok v
  | .thrown => .error ()

/-- The `paymentMethodUuid` initializer (lines 87-91): try/catch around
the raw read, `null` on a throw. -/
def initPaymentMethodUuid (r : StoreRead) : Option String :=
  match rawGetItem r with
  | .ok v => v
  | .error _ => none

/-- The `customFieldValues` initializer (lines 96-101):
`saved ? JSON.parse(saved) : {}` inside try/catch; a parse failure is
`parse s = none`. -/
def initCustomFieldValues (r : StoreRead) (parse : String → Option Store) : Store :=
  match rawGetItem r with
  | .error _ => []
  | .ok none => []
  | .ok (some s) =>
    if s = "" then []
    else match parse s with
      | some m => m
      | none => []

/-- The `bulkInputValues` initializer (lines 114-119). -/
def initBulkInputValues (r : StoreRead)
    (parse : String → Option (List (Nat × String))) : List (Nat × String) :=
  match rawGetItem r with
  | .error _ => []
  | .ok none => []
  | .ok (some s) =>
    if s = "" then []
    else match parse s with
      | some m => m
      | none => []

/-- The `bulkSelectedGames` initializer (lines 120-125). -/
def initBulkSelectedGames (r : StoreRead)
    (parse : String → Option (List String)) : List String :=
  match rawGetItem r with
  | .error _ => []
  | .ok none => []
  | .ok (some s) =>
    if s = "" then []
    else match parse s with
      | some m => m
      | none => []

/-- The `receiptImageUrl` initializer (lines 103-105): a bare
`localStorage.getItem` with no try/catch. -/
def initReceiptImageUrl (r : StoreRead) : Except Unit (Option String) :=
  rawGetItem r

/-- The `receiptPreview` initializer (lines 106-108): a bare
`localStorage.getItem` with no try/catch. -/
def initReceiptPreview (r : StoreRead) : Except Unit (Option String) :=
  rawGetItem r

/-- The durable mirror of the checkout session: one optional slot per
storage key of `CHECKOUT_STORAGE_KEYS` (`none` = key absent).  The JSON
encoding of the flat maps/lists is lossless, so the slots hold the
decoded values directly. -/
structure CheckoutStorage where
  paymentMethodUuid : Option String
  customFieldValues : Option Store
  receiptImageUrl : Option String
  receiptPreview : Option String
  bulkInputValues : Option (List (Nat × String))
  bulkSelectedGames : Option (List String)
deriving Repr

/-- The persistence effects of lines 141-162: maps and lists are always
written; the raw-string slots are written when truthy and removed
otherwise. -/
def persistCheckout (s : CheckoutState) : CheckoutStorage :=
  { paymentMethodUuid := if jsTruthyS s.paymentMethodUuid then s.paymentMethodUuid else none
    customFieldValues := some s.customFieldValues
    receiptImageUrl := if jsTruthyS s.receiptImageUrl then s.receiptImageUrl else none
    receiptPreview := if jsTruthyS s.receiptPreview then s.receiptPreview else none
    bulkInputValues := some s.bulkInputValues
    bulkSelectedGames := some s.bulkSelectedGames }

/-- Re-initialization on mount from a non-throwing store (the `useState`
initializers of lines 87-130 applied to the mirrored slots). -/
def restoreCheckout (st : CheckoutStorage) : CheckoutState :=
  { paymentMethodUuid := st.paymentMethodUuid
    customFieldValues := st.customFieldValues.getD []
    receiptFile := none
    receiptImageUrl := st.receiptImageUrl
    receiptPreview := st.receiptPreview
    receiptError := none
    copied := false
    hasCopiedMessage := false
    bulkInputValues := st.bulkInputValues.getD []
    bulkSelectedGames := st.bulkSelectedGames.getD []
    orderId := none
    isOrderModalOpen := false
    isPlacingOrder := false
    existingOrderStatus := none }

/-! ### Concrete inputs for the C1 theorem -/

/-- A cart with one field-bearing item whose single field is required. -/
def c1Cart : List CartItem :=
  [{ id := "g1:::CART:::100-ab"
     name := "Game One"
     quantity := 1
     totalPrice := 10
     selectedVariation := none
     customFields := some [{ key := "ign", label := "IGN", placeholder := "", required := true }] }]

def c1Pms : List PaymentMethod :=
  [{ uuid_id := "pm-1", name := "GCash", account_number := "0917", account_name := "R" }]

/-- Checkout state with a payment method and a receipt but a completely
blank field value map. -/
def c1State : CheckoutState :=
  { paymentMethodUuid := some "pm-1"
    customFieldValues := []
    receiptFile := none
    receiptImageUrl := some "http://r"
    receiptPreview := none
    receiptError := none
    copied := false
    hasCopiedMessage := false
    bulkInputValues := []
    bulkSelectedGames := []
    orderId := none
    isOrderModalOpen := false
    isPlacingOrder := false
    existingOrderStatus := none }

/-- C1: the claim says a blank required field blocks the backend
order-creation call.  The code computes `isDetailsValid` but neither the
place-order button's `disabled` condition (line 999) nor
`handlePlaceOrderDirect` consults it: with a required field blank
(`isDetailsValid = false`), the button is enabled and the handler still
hands a payload to `createOrder`. -/
theorem claim_C1_bug :
    isDetailsValid c1Cart [] = false ∧
    placeOrderDirectDisabled (some "pm-1") (some "http://r") false false = false ∧
    (handlePlaceOrderDirect c1Pms c1Cart 10 (Except.ok none) c1State).2.isSome = true := by
  refine ⟨by decide, by decide, rfl⟩

/-! ### Concrete inputs for the C3 theorem -/

def c3Item : CartItem :=
  { id := "g"
    name := "Game"
    quantity := 1
    totalPrice := 10
    selectedVariation := none
    customFields := some [{ key := "k", label := "Account", placeholder := "", required := true }] }

def c3Cart : List CartItem := [c3Item]

/-- The field value map after the form input writes "X" for the item's
only field: the form uses `formValueKey` (id, position 0, key). -/
def c3Store : Store := [("g_0_k", "X")]

/-- C3: the claim says every read/write of the field value map uses the
composite key of original id, position index and field key.  The message
composer (line 341) is the exception: it reads `originalId_fieldKey`
without the index, so a value written by the form under `g_0_k` is
invisible to it — validation and the order payload see the value, the
composed message's custom-fields section is empty. -/
theorem claim_C3_bug :
    formValueKey "g" 0 "k" = "g_0_k" ∧
    msgValueKey "g" "k" = "g_k" ∧
    formValueKey "g" 0 "k" ≠ msgValueKey "g" "k" ∧
    trimTruthy (storeLookup c3Store (formValueKey "g" 0 "k")) = true ∧
    storeLookup (buildCustomerInfo c3Cart c3Store "GCash") "Account" = some "X" ∧
    itemFieldsFor c3Store c3Item = [] ∧
    customFieldsSectionOf c3Cart c3Store = "" := by
  refine ⟨by decide, by decide, by decide, by decide, by decide, by decide, by decide⟩

/-- C9: removing the receipt clears the pending file, the receipt
reference (also from storage, via the persistence effect), the preview,
the error string and the copied-message flag together, and leaves every
other piece of checkout state unchanged. -/
theorem claim_C9 (s : CheckoutState) :
    (handleReceiptRemove s).receiptFile = none ∧
    (handleReceiptRemove s).receiptImageUrl = none ∧
    (handleReceiptRemove s).receiptPreview = none ∧
    (handleReceiptRemove s).receiptError = none ∧
    (handleReceiptRemove s).hasCopiedMessage = false ∧
    (persistCheckout (handleReceiptRemove s)).receiptImageUrl = none ∧
    (persistCheckout (handleReceiptRemove s)).receiptPreview = none ∧
    (handleReceiptRemove s).paymentMethodUuid = s.paymentMethodUuid ∧
    (handleReceiptRemove s).customFieldValues = s.customFieldValues ∧
    (handleReceiptRemove s).bulkInputValues = s.bulkInputValues ∧
    (handleReceiptRemove s).bulkSelectedGames = s.bulkSelectedGames ∧
    (handleReceiptRemove s).orderId = s.orderId ∧
    (handleReceiptRemove s).existingOrderStatus = s.existingOrderStatus ∧
    (handleReceiptRemove s).copied = s.copied ∧
    (handleReceiptRemove s).isOrderModalOpen = s.isOrderModalOpen ∧
    (handleReceiptRemove s).isPlacingOrder = s.isPlacingOrder := by
  simp [handleReceiptRemove, persistCheckout, jsTruthyS]

/-- C6: on mount with a stored order id, an "approved" fetch clears the
stored id and both in-memory trackers; a "rejected" fetch retains the
stored id and the status flag (and the order id); a fetch miss clears
the stored id. -/
theorem claim_C6 (sid : String) (o1 o2 : Order)
    (f1 f2 f3 : String → Option Order)
    (h1 : f1 sid = some o1) (ha : o1.status = OrderStatus.approved)
    (h2 : f2 sid = some o2) (hr : o2.status = OrderStatus.rejected)
    (h3 : f3 sid = none) :
    checkExistingOrder (some sid) f1 = (none, none, none) ∧
    checkExistingOrder (some sid) f2 = (some sid, some OrderStatus.rejected, some o2.id) ∧
    checkExistingOrder (some sid) f3 = (none, none, none) := by
  refine ⟨?_, ?_, ?_⟩
  · simp [checkExistingOrder, h1, ha]
  · simp [checkExistingOrder, h2, hr]
  · simp [checkExistingOrder, h3]

/-- Witness for C6 at concrete fetch results. -/
theorem claim_C6_witness :
    checkExistingOrder (some "o1") (fun _ => some ⟨"o1", OrderStatus.approved⟩)
      = (none, none, none) ∧
    checkExistingOrder (some "o1") (fun _ => some ⟨"o1", OrderStatus.rejected⟩)
      = (some "o1", some OrderStatus.rejected, some "o1") ∧
    checkExistingOrder (some "o1") (fun _ => none) = (none, none, none) :=
  claim_C6 "o1" ⟨"o1", OrderStatus.approved⟩ ⟨"o1", OrderStatus.rejected⟩
    (fun _ => some ⟨"o1", OrderStatus.approved⟩)
    (fun _ => some ⟨"o1", OrderStatus.rejected⟩)
    (fun _ => none) rfl rfl rfl rfl rfl

/-- C4 counterexample: the claim says no initializer ever propagates an
exception, but the `receiptImageUrl` and `receiptPreview` initializers
(lines 103-108) call `localStorage.getItem` with no try/catch, so a
throwing store read propagates to the caller. -/
theorem claim_C4_counterexample :
    initReceiptImageUrl StoreRead.thrown = Except.error () ∧
    initReceiptPreview StoreRead.thrown = Except.error () :=
  ⟨rfl, rfl⟩

/-- C4 as amended: the wrapped initializers (payment method id, field
value map, bulk values, bulk selections) yield their documented defaults
on an absent value, a throwing read, or a JSON parse failure, and never
propagate an exception; the receipt reference and preview initializers
yield `null` on an absent value but propagate a throwing store read. -/
theorem claim_C4_amended (parseS : String → Option Store)
    (parseB : String → Option (List (Nat × String)))
    (parseG : String → Option (List String)) (bad : String)
    (hS : parseS bad = none) (hB : parseB bad = none) (hG : parseG bad = none) :
    initPaymentMethodUuid StoreRead.thrown = none ∧
    initPaymentMethodUuid (StoreRead.ok none) = none ∧
    initCustomFieldValues StoreRead.thrown parseS = [] ∧
    initCustomFieldValues (StoreRead.ok none) parseS = [] ∧
    initCustomFieldValues (StoreRead.ok (some bad)) parseS = [] ∧
    initBulkInputValues StoreRead.thrown parseB = [] ∧
    initBulkInputValues (StoreRead.ok none) parseB = [] ∧
    initBulkInputValues (StoreRead.ok (some bad)) parseB = [] ∧
    initBulkSelectedGames StoreRead.thrown parseG = [] ∧
    initBulkSelectedGames (StoreRead.ok none) parseG = [] ∧
    initBulkSelectedGames (StoreRead.ok (some bad)) parseG = [] ∧
    initReceiptImageUrl (StoreRead.ok none) = Except.ok none ∧
    initReceiptPreview (StoreRead.ok none) = Except.ok none ∧
    initReceiptImageUrl StoreRead.thrown = Except.error () ∧
    initReceiptPreview StoreRead.thrown = Except.error () := by
  by_cases hb : bad = "" <;>
    simp [initPaymentMethodUuid, initCustomFieldValues, initBulkInputValues,
      initBulkSelectedGames, initReceiptImageUrl, initReceiptPreview, rawGetItem,
      hS, hB, hG, hb]

/-- Witness for C4 (amended) at concrete parsers and a concrete
unparsable string. -/
theorem claim_C4_witness :
    initCustomFieldValues (StoreRead.ok (some "not json")) (fun _ => none) = [] ∧
    initBulkInputValues StoreRead.thrown (fun _ => none) = [] ∧
    initReceiptImageUrl StoreRead.thrown = Except.error () :=
  ⟨(claim_C4_amended (fun _ => none) (fun _ => none) (fun _ => none) "not json"
      rfl rfl rfl).2.2.2.2.1,
   (claim_C4_amended (fun _ => none) (fun _ => none) (fun _ => none) "not json"
      rfl rfl rfl).2.2.2.2.2.1,
   (claim_C4_amended (fun _ => none) (fun _ => none) (fun _ => none) "not json"
      rfl rfl rfl).2.2.2.2.2.2.2.2.2.2.2.2.2.1⟩

/-- C7: in both submission modes, a missing payment method or a missing
receipt reference makes the handler set a field-level error and return:
no deep link is opened, no payload reaches `createOrder`, and every
other piece of checkout state is unchanged (the result state is the
input state with only `receiptError` replaced). -/
theorem claim_C7 (pms : List PaymentMethod) (cart : List CartItem) (total : Nat)
    (enc : String → String) (created : Except Unit (Option Order)) (s : CheckoutState)
    (h : jsTruthyS s.paymentMethodUuid = false ∨ jsTruthyS s.receiptImageUrl = false) :
    (∃ e, handlePlaceOrder pms cart total enc s
        = ({ s with receiptError := some e }, none)) ∧
    (∃ e, handlePlaceOrderDirect pms cart total created s
        = ({ s with receiptError := some e }, none)) := by
  cases hpm : jsTruthyS s.paymentMethodUuid with
  | false =>
    exact ⟨⟨"Please select a payment method", by simp [handlePlaceOrder, hpm]⟩,
           ⟨"Please select a payment method", by simp [handlePlaceOrderDirect, hpm]⟩⟩
  | true =>
    have hr : jsTruthyS s.receiptImageUrl = false := by
      rcases h with h | h
      · rw [hpm] at h; exact absurd h (by simp)
      · exact h
    exact ⟨⟨"Please upload your payment receipt before placing the order",
             by simp [handlePlaceOrder, hpm, hr]⟩,
           ⟨"Please upload your payment receipt before placing the order",
             by simp [handlePlaceOrderDirect, hpm, hr]⟩⟩

/-- Concrete state for the C7 witness: no payment method selected. -/
def c7State : CheckoutState :=
  { paymentMethodUuid := none
    customFieldValues := []
    receiptFile := none
    receiptImageUrl := some "http://r"
    receiptPreview := none
    receiptError := none
    copied := false
    hasCopiedMessage := false
    bulkInputValues := []
    bulkSelectedGames := []
    orderId := none
    isOrderModalOpen := false
    isPlacingOrder := false
    existingOrderStatus := none }

/-- Witness for C7 at a concrete state with no payment method. -/
theorem claim_C7_witness :
    (∃ e, handlePlaceOrder [] [] 0 id c7State
        = ({ c7State with receiptError := some e }, none)) ∧
    (∃ e, handlePlaceOrderDirect [] [] 0 (Except.ok none) c7State
        = ({ c7State with receiptError := some e }, none)) :=
  claim_C7 [] [] 0 id (Except.ok none) c7State (Or.inl rfl)

/-- C8: persisting the checkout state and re-initializing from storage
preserves the composed order message over the same cart (for any actual
payment-method id, i.e. one that is not the empty string — `setItem` is
only ever called with truthy ids). -/
theorem claim_C8 (pms : List PaymentMethod) (cart : List CartItem) (total : Nat)
    (s : CheckoutState) (h : s.paymentMethodUuid ≠ some "") :
    generateOrderMessage cart total pms
        (restoreCheckout (persistCheckout s)).paymentMethodUuid
        (restoreCheckout (persistCheckout s)).receiptImageUrl
        (restoreCheckout (persistCheckout s)).customFieldValues
      = generateOrderMessage cart total pms
          s.paymentMethodUuid s.receiptImageUrl s.customFieldValues := by
  have hcfv : (restoreCheckout (persistCheckout s)).customFieldValues
      = s.customFieldValues := rfl
  have hpm : (restoreCheckout (persistCheckout s)).paymentMethodUuid
      = s.paymentMethodUuid := by
    cases hp : s.paymentMethodUuid with
    | none => simp [restoreCheckout, persistCheckout, jsTruthyS, hp]
    | some p =>
      have hne : p ≠ "" := fun he => h (by rw [hp, he])
      simp [restoreCheckout, persistCheckout, jsTruthyS, hp, hne]
  have hr : (restoreCheckout (persistCheckout s)).receiptImageUrl.getD ""
      = s.receiptImageUrl.getD "" := by
    cases hp : s.receiptImageUrl with
    | none => simp [restoreCheckout, persistCheckout, jsTruthyS, hp]
    | some r =>
      by_cases hre : r = ""
      · simp [restoreCheckout, persistCheckout, jsTruthyS, hp, hre]
      · simp [restoreCheckout, persistCheckout, jsTruthyS, hp, hre]
  simp only [generateOrderMessage]
  rw [hcfv, hpm, hr]

/-- Concrete state for the C8 witness. -/
def c8State : CheckoutState :=
  { paymentMethodUuid := some "pm-1"
    customFieldValues := [("default_ign", "Reina")]
    receiptFile := none
    receiptImageUrl := some "http://r"
    receiptPreview := some "data:image/png;base64,xyz"
    receiptError := none
    copied := false
    hasCopiedMessage := true
    bulkInputValues := [(0, "77")]
    bulkSelectedGames := ["G1"]
    orderId := none
    isOrderModalOpen := false
    isPlacingOrder := false
    existingOrderStatus := none }

/-- Witness for C8 at a concrete populated state. -/
theorem claim_C8_witness :
    generateOrderMessage [] 0 [⟨"pm-1", "GCash", "0917", "R"⟩]
        (restoreCheckout (persistCheckout c8State)).paymentMethodUuid
        (restoreCheckout (persistCheckout c8State)).receiptImageUrl
        (restoreCheckout (persistCheckout c8State)).customFieldValues
      = generateOrderMessage [] 0 [⟨"pm-1", "GCash", "0917", "R"⟩]
          c8State.paymentMethodUuid c8State.receiptImageUrl
          c8State.customFieldValues :=
  claim_C8 [⟨"pm-1", "GCash", "0917", "R"⟩] [] 0 c8State (by decide)

/-! ### Helper lemmas about `splitFirst` (for C10) -/

lemma splitFirst_eq (sep : List Char) :
    ∀ (l b a : List Char), splitFirst sep l = some (b, a) → l = b ++ sep ++ a := by
  intro l
  induction l with
  | nil => intro b a h; simp [splitFirst] at h
  | cons c t ih =>
    intro b a h
    by_cases hp : sep.isPrefixOf (c :: t)
    · rw [splitFirst, if_pos hp] at h
      obtain ⟨a', ha'⟩ := (List.isPrefixOf_iff_prefix.mp hp)
      have hdrop : (c :: t).drop sep.length = a' := by
        rw [← ha']; exact List.drop_left sep a'
      rw [hdrop] at h
      obtain ⟨hb, ha⟩ := Prod.mk.injEq .. ▸ Option.some.inj h
      subst hb; subst ha
      simpa using ha'.symm
    · rw [splitFirst, if_neg hp] at h
      cases hs : splitFirst sep t with
      | none => rw [hs] at h; simp at h
      | some p =>
        rw [hs] at h
        obtain ⟨hb, ha⟩ := Prod.mk.injEq .. ▸ Option.some.inj h
        subst hb; subst ha
        have := ih p.1 p.2 hs
        simp [this]

lemma splitFirst_none (sep : List Char) (hsep : sep ≠ []) :
    ∀ l, splitFirst sep l = none → ∀ b a, l ≠ b ++ sep ++ a := by
  intro l
  induction l with
  | nil =>
    intro _ b a heq
    have h1 := List.append_eq_nil.mp heq.symm
    exact hsep (List.append_eq_nil.mp h1.1).2
  | cons c t ih =>
    intro h b a heq
    rw [splitFirst] at h
    by_cases hp : sep.isPrefixOf (c :: t)
    · rw [if_pos hp] at h; simp at h
    · rw [if_neg hp] at h
      have hs : splitFirst sep t = none := by
        cases hs : splitFirst sep t with
        | none => rfl
        | some p => rw [hs] at h; simp at h
      cases b with
      | nil =>
        apply hp
        apply List.isPrefixOf_iff_prefix.mpr
        rw [heq]; simp
      | cons b0 bt =>
        have hc := List.cons.injEq .. ▸ heq
        exact ih hs bt a (by simpa using hc.2)

lemma splitFirst_min (sep : List Char) :
    ∀ (l b a : List Char), splitFirst sep l = some (b, a) →
      ∀ b' a', l = b' ++ sep ++ a' → b.length ≤ b'.length := by
  intro l
  induction l with
  | nil => intro b a h; simp [splitFirst] at h
  | cons c t ih =>
    intro b a h b' a' heq
    by_cases hp : sep.isPrefixOf (c :: t)
    · rw [splitFirst, if_pos hp] at h
      obtain ⟨hb, _⟩ := Prod.mk.injEq .. ▸ Option.some.inj h
      subst hb
      exact Nat.zero_le _
    · rw [splitFirst, if_neg hp] at h
      cases hs : splitFirst sep t with
      | none => rw [hs] at h; simp at h
      | some p =>
        rw [hs] at h
        obtain ⟨hb, _⟩ := Prod.mk.injEq .. ▸ Option.some.inj h
        subst hb
        cases b' with
        | nil =>
          exfalso
          apply hp
          apply List.isPrefixOf_iff_prefix.mpr
          rw [heq]; simp
        | cons b0 bt =>
          have hc := List.cons.injEq .. ▸ heq
          have := ih p.1 p.2 hs bt a' (by simpa using hc.2)
          simpa using Nat.succ_le_succ this

/-- The items kept by the dedup pass have original ids outside `seen`
and pairwise-distinct original ids. -/
lemma dedupe_distinct (l : List CartItem) :
    ∀ seen : List String,
      (∀ i ∈ dedupeByOriginalId l seen, getOriginalMenuItemId i.id ∉ seen) ∧
      (dedupeByOriginalId l seen).Pairwise
        (fun i j => getOriginalMenuItemId i.id ≠ getOriginalMenuItemId j.id) := by
  induction l with
  | nil => intro seen; simp [dedupeByOriginalId]
  | cons i rest ih =>
    intro seen
    by_cases hmem : getOriginalMenuItemId i.id ∈ seen
    · simpa [dedupeByOriginalId, hmem] using ih seen
    · rw [dedupeByOriginalId, if_neg hmem]
      constructor
      · intro j hj
        rcases List.mem_cons.mp hj with hj | hj
        · subst hj; exact hmem
        · have := (ih (getOriginalMenuItemId i.id :: seen)).1 j hj
          exact fun hin => this (List.mem_cons_of_mem _ hin)
      · apply List.Pairwise.cons
        · intro j hj
          have := (ih (getOriginalMenuItemId i.id :: seen)).1 j hj
          exact fun he => this (he ▸ List.mem_cons_self _ _)
        · exact (ih (getOriginalMenuItemId i.id :: seen)).2

/-- C10: `getOriginalMenuItemId` returns the text before the first
`':::CART:::'` occurrence (witnessed by a decomposition of minimal
prefix length) and the identifier unchanged when no occurrence exists;
and the dedup grouping keys items by this extraction, so the grouped
items carry pairwise-distinct original ids. -/
theorem claim_C10 :
    (∀ s : String, (∃ b a, s.toList = b ++ cartSep ++ a) →
       ∃ b a, s.toList = b ++ cartSep ++ a ∧
         getOriginalMenuItemId s = String.mk b ∧
         ∀ b' a', s.toList = b' ++ cartSep ++ a' → b.length ≤ b'.length) ∧
    (∀ s : String, (∀ b a, s.toList ≠ b ++ cartSep ++ a) →
       getOriginalMenuItemId s = s) ∧
    (∀ cart : List CartItem,
      (itemsWithCustomFields cart).Pairwise
        (fun i j => getOriginalMenuItemId i.id ≠ getOriginalMenuItemId j.id)) := by
  refine ⟨?_, ?_, ?_⟩
  · intro s ⟨b0, a0, h0⟩
    cases hs : splitFirst cartSep s.toList with
    | none => exact absurd h0 (splitFirst_none cartSep (by decide) _ hs b0 a0)
    | some p =>
      exact ⟨p.1, p.2, splitFirst_eq _ _ _ _ hs,
        by unfold getOriginalMenuItemId; rw [hs], splitFirst_min _ _ _ _ hs⟩
  · intro s hno
    cases hs : splitFirst cartSep s.toList with
    | none => unfold getOriginalMenuItemId; rw [hs]
    | some p => exact absurd (splitFirst_eq _ _ _ _ hs) (hno p.1 p.2)
  · intro cart
    exact (dedupe_distinct _ []).2

/-- Witness for C10: a concrete composite id is cut at the separator and
a separator-free id is returned unchanged. -/
theorem claim_C10_witness :
    (∃ b a, ("game1:::CART:::123-ab" : String).toList = b ++ cartSep ++ a ∧
       getOriginalMenuItemId "game1:::CART:::123-ab" = String.mk b ∧
       ∀ b' a', ("game1:::CART:::123-ab" : String).toList = b' ++ cartSep ++ a' →
         b.length ≤ b'.length) ∧
    getOriginalMenuItemId "plain" = "plain" :=
  ⟨claim_C10.1 "game1:::CART:::123-ab"
      ⟨("game1" : String).toList, ("123-ab" : String).toList, by decide⟩,
   claim_C10.2.1 "plain"
      (splitFirst_none cartSep (by decide) ("plain" : String).toList (by decide))⟩

/-- C5: when the bulk-selected field-bearing items are exactly `item1`
and `item2` (with field lists `fs1`, `fs2`, the first nonempty), the
number of exposed bulk fields is the maximum of the two field counts;
a bulk entry at position `i` writes the composite-keyed field-value
entry of every selected item that has a field at position `i` (the
written value is looked up back); and the update set is characterized
unconditionally (last conjunct): it consists of exactly one entry per
selected item owning position `i`, so a selected item lacking a field
at `i` — whichever of the two it is — gets no write at all. -/
theorem claim_C5 (cart : List CartItem) (sel : List String) (item1 item2 : CartItem)
    (fs1 fs2 : List CustomField)
    (hsel : sel.isEmpty = false)
    (hfilter : selectedBulkItems cart sel = [item1, item2])
    (hf1 : item1.customFields = some fs1) (hf2 : item2.customFields = some fs2)
    (hn1 : fs1.length ≠ 0) :
    (bulkInputFields cart sel).length = Nat.max fs1.length fs2.length ∧
    (∀ (i : Nat) (v : String) (f1 : CustomField), fs1[i]? = some f1 →
      storeLookup (bulkSyncUpdates cart sel [(i, v)])
        (formValueKey (getOriginalMenuItemId item1.id) i f1.key) = some v) ∧
    (∀ (i : Nat) (v : String) (f2 : CustomField), fs2[i]? = some f2 →
      storeLookup (bulkSyncUpdates cart sel [(i, v)])
        (formValueKey (getOriginalMenuItemId item2.id) i f2.key) = some v) ∧
    (∀ (i : Nat) (v : String),
      bulkSyncUpdates cart sel [(i, v)]
        = (match fs2[i]? with
           | some f2 => [(formValueKey (getOriginalMenuItemId item2.id) i f2.key, v)]
           | none => [])
          ++ (match fs1[i]? with
              | some f1 => [(formValueKey (getOriginalMenuItemId item1.id) i f1.key, v)]
              | none => [])) := by
  have hmem1 : item1 ∈ itemsWithCustomFields cart := by
    have hm : item1 ∈ selectedBulkItems cart sel := by rw [hfilter]; simp
    unfold selectedBulkItems at hm
    exact (List.mem_filter.mp hm).1
  have hmem2 : item2 ∈ itemsWithCustomFields cart := by
    have hm : item2 ∈ selectedBulkItems cart sel := by rw [hfilter]; simp
    unfold selectedBulkItems at hm
    exact (List.mem_filter.mp hm).1
  have hany1 : ∃ x ∈ itemsWithCustomFields cart,
      getOriginalMenuItemId x.id = getOriginalMenuItemId item1.id := ⟨item1, hmem1, rfl⟩
  have hany2 : ∃ x ∈ itemsWithCustomFields cart,
      getOriginalMenuItemId x.id = getOriginalMenuItemId item2.id := ⟨item2, hmem2, rfl⟩
  have hval : ∀ (i : Nat) (v : String),
      bulkSyncUpdates cart sel [(i, v)]
        = (match fs2[i]? with
           | some f2 => [(formValueKey (getOriginalMenuItemId item2.id) i f2.key, v)]
           | none => [])
          ++ (match fs1[i]? with
              | some f1 => [(formValueKey (getOriginalMenuItemId item1.id) i f1.key, v)]
              | none => []) := by
    intro i v
    cases h1i : fs1[i]? with
    | none =>
      cases h2i : fs2[i]? with
      | none =>
        simp [bulkSyncUpdates, hsel, hfilter, hf1, hf2, h1i, h2i]
      | some f2 =>
        simp [bulkSyncUpdates, hsel, hfilter, hf1, hf2, h1i, h2i, hany2, storeInsert]
    | some f1 =>
      cases h2i : fs2[i]? with
      | none =>
        simp [bulkSyncUpdates, hsel, hfilter, hf1, hf2, h1i, h2i, hany1, storeInsert]
      | some f2 =>
        simp [bulkSyncUpdates, hsel, hfilter, hf1, hf2, h1i, h2i, hany1, hany2, storeInsert]
  refine ⟨?_, ?_, ?_, ?_⟩
  · have hmax : ¬ Nat.max fs1.length fs2.length = 0 := by
      rw [Nat.max_eq_zero_iff]
      rintro ⟨h1, _⟩
      exact hn1 h1
    simp [bulkInputFields, hsel, hfilter, hf1, hf2, Nat.zero_max, hmax]
  · intro i v f1 h1i
    rw [hval i v]
    cases h2i : fs2[i]? with
    | none => simp [h1i, h2i, storeLookup]
    | some f2 =>
      by_cases heq : formValueKey (getOriginalMenuItemId item2.id) i f2.key
          = formValueKey (getOriginalMenuItemId item1.id) i f1.key
      · simp [h1i, h2i, storeLookup, List.find?, heq]
      · simp [h1i, h2i, storeLookup, List.find?, heq]
  · intro i v f2 h2i
    rw [hval i v]
    cases h1i : fs1[i]? <;> simp [h1i, h2i, storeLookup, List.find?]
  · exact hval

/-! ### Concrete inputs for the C5 witness -/

def w5fs1 : List CustomField :=
  [{ key := "uid", label := "UID", placeholder := "", required := true },
   { key := "srv", label := "Server", placeholder := "", required := true }]

def w5fs2 : List CustomField :=
  [{ key := "uid", label := "UID", placeholder := "", required := true },
   { key := "srv", label := "Server", placeholder := "", required := true },
   { key := "zone", label := "Zone", placeholder := "", required := false }]

def w5g1 : CartItem :=
  { id := "G1:::CART:::t", name := "GameOne", quantity := 1, totalPrice := 5,
    selectedVariation := none, customFields := some w5fs1 }

def w5g2 : CartItem :=
  { id := "G2:::CART:::u", name := "GameTwo", quantity := 1, totalPrice := 5,
    selectedVariation := none, customFields := some w5fs2 }

def w5cart : List CartItem := [w5g1, w5g2]

/-- The same two items with the 3-field item first, so the item lacking
position 2 is the second selected item. -/
def w5cartR : List CartItem := [w5g2, w5g1]

def w5sel : List String := ["G1", "G2"]

/-- Witness for C5: two selected items with 2 and 3 fields expose 3 bulk
fields; a bulk value at position 0 is written for both items; and one at
position 2 is written only for the item owning that position — in both
selection orders, the update set is exactly the owning item's single
entry and the item lacking position 2 gets no write. -/
theorem claim_C5_witness :
    (bulkInputFields w5cart w5sel).length = Nat.max w5fs1.length w5fs2.length ∧
    storeLookup (bulkSyncUpdates w5cart w5sel [(0, "77")])
      (formValueKey (getOriginalMenuItemId w5g1.id) 0 "uid") = some "77" ∧
    storeLookup (bulkSyncUpdates w5cart w5sel [(0, "77")])
      (formValueKey (getOriginalMenuItemId w5g2.id) 0 "uid") = some "77" ∧
    bulkSyncUpdates w5cart w5sel [(2, "Z1")]
      = [(formValueKey (getOriginalMenuItemId w5g2.id) 2 "zone", "Z1")] ∧
    bulkSyncUpdates w5cartR w5sel [(2, "Z1")]
      = [(formValueKey (getOriginalMenuItemId w5g2.id) 2 "zone", "Z1")] := by
  have h := claim_C5 w5cart w5sel w5g1 w5g2 w5fs1 w5fs2 (by decide) (by decide)
    rfl rfl (by decide)
  have hR := claim_C5 w5cartR w5sel w5g2 w5g1 w5fs2 w5fs1 (by decide) (by decide)
    rfl rfl (by decide)
  refine ⟨h.1,
    h.2.1 0 "77" { key := "uid", label := "UID", placeholder := "", required := true } rfl,
    h.2.2.1 0 "77" { key := "uid", label := "UID", placeholder := "", required := true } rfl,
    by simpa using h.2.2.2 2 "Z1",
    by simpa using hR.2.2.2 2 "Z1"⟩

/-! ### Concrete inputs for C2 -/

def c2ItemA : CartItem :=
  { id := "A-id:::CART:::1-a", name := "A", quantity := 1, totalPrice := 10,
    selectedVariation := none,
    customFields := some [{ key := "ign", label := "IGN", placeholder := "", required := true }] }

def c2ItemB : CartItem :=
  { id := "B-id:::CART:::2-b", name := "B", quantity := 1, totalPrice := 10,
    selectedVariation := none,
    customFields := some [{ key := "ign", label := "IGN", placeholder := "", required := true }] }

def c2Cart : List CartItem := [c2ItemA, c2ItemB]

def c2Pms : List PaymentMethod :=
  [{ uuid_id := "pm-1", name := "GCash", account_number := "0917", account_name := "R" }]

/-- The field value map with the IGN answers under the keys the form
inputs (and validation, bulk sync and the payload) use: original id,
position index, field key. -/
def c2FormStore : Store := [("A-id_0_ign", "X"), ("B-id_0_ign", "X")]

/-- The field value map with the IGN answers under the keys the message
composer looks up: original id and field key, without the index. -/
def c2Good : Store := [("A-id_ign", "X"), ("B-id_ign", "X")]

set_option maxRecDepth 8000 in
/-- C2 counterexample: items A and B both carry the filled answer "X"
for their IGN field under the documented composite value keys (the keys
the form writes, checked truthy below), yet the composed message
contains the block "A\nB\nIGN: X" zero times, not once — the composer
reads the un-indexed key `originalId_fieldKey` and finds no value. -/
theorem claim_C2_counterexample :
    trimTruthy (storeLookup c2FormStore (formValueKey "A-id" 0 "ign")) = true ∧
    trimTruthy (storeLookup c2FormStore (formValueKey "B-id" 0 "ign")) = true ∧
    countOccurrences (generateOrderMessage c2Cart 20 c2Pms (some "pm-1")
        (some "http://r") c2FormStore) "A\nB\nIGN: X" = 0 := by
  refine ⟨by decide, by decide, by decide⟩

/-- Inserting a name under the key of the single existing group appends
it to that group's names. -/
lemma insertGroup_head (k n : String) (ns : List String) (fs0 fs : List (String × String)) :
    insertGroup [(k, ns, fs0)] k n fs = [(k, ns ++ [n], fs0)] := by
  simp [insertGroup]

/-- Folding items that all collect the same nonempty field answers into
a group list holding exactly that one group appends every item name to
the group. -/
lemma buildGroupsAux_const (m : Store) (ans : List (String × String)) (hans : ans ≠ []) :
    ∀ (items : List CartItem) (ns : List String) (fs0 : List (String × String)),
      (∀ i ∈ items, itemFieldsFor m i = ans) →
      buildGroupsAux m items [(groupKeyOf ans, ns, fs0)]
        = [(groupKeyOf ans, ns ++ items.map (·.name), fs0)] := by
  intro items
  induction items with
  | nil => intro ns fs0 _; simp [buildGroupsAux]
  | cons i rest ih =>
    intro ns fs0 hall
    have hi : itemFieldsFor m i = ans := hall i (List.mem_cons_self ..)
    have hrest : ∀ j ∈ rest, itemFieldsFor m j = ans :=
      fun j hj => hall j (List.mem_cons_of_mem _ hj)
    have hansE : ans.isEmpty = false := by
      cases ans with
      | nil => exact absurd rfl hans
      | cons _ _ => rfl
    rw [buildGroupsAux]
    simp only [hi, hansE, Bool.false_eq_true, if_false]
    rw [insertGroup_head, ih (ns ++ [i.name]) fs0 hrest]
    simp

set_option maxRecDepth 8000 in
/-- C2 as amended: whenever every field-bearing item of the cart
collects the same nonempty label/value answers (under the composer's own
lookup keys), the grouping produces a single block — the section list is
exactly the item names joined by newlines followed by one shared answer
line — and, at the concrete two-item instance with answers IGN = "X",
the composed message contains "A\nB\nIGN: X" exactly once. -/
theorem claim_C2_amended (cart : List CartItem) (m : Store)
    (ans : List (String × String)) (hans : ans ≠ [])
    (hall : ∀ i ∈ itemsWithCustomFields cart, itemFieldsFor m i = ans)
    (hne : itemsWithCustomFields cart ≠ []) :
    (sectionsOf (buildGroups m (itemsWithCustomFields cart))
       = [String.intercalate "\n" ((itemsWithCustomFields cart).map (·.name)),
          answerLineOf ans] ∧
     customFieldsSectionOf cart m
       = String.intercalate "\n"
           [String.intercalate "\n" ((itemsWithCustomFields cart).map (·.name)),
            answerLineOf ans]) ∧
    countOccurrences (generateOrderMessage c2Cart 20 c2Pms (some "pm-1")
        (some "http://r") c2Good) "A\nB\nIGN: X" = 1 := by
  obtain ⟨i0, rest, hitems⟩ : ∃ i0 rest, itemsWithCustomFields cart = i0 :: rest := by
    cases h : itemsWithCustomFields cart with
    | nil => exact absurd h hne
    | cons a b => exact ⟨a, b, rfl⟩
  have hansE : ans.isEmpty = false := by
    cases ans with
    | nil => exact absurd rfl hans
    | cons _ _ => rfl
  have hi0 : itemFieldsFor m i0 = ans := hall i0 (hitems ▸ List.mem_cons_self ..)
  have hrest : ∀ j ∈ rest, itemFieldsFor m j = ans :=
    fun j hj => hall j (hitems ▸ List.mem_cons_of_mem _ hj)
  have hgroups : buildGroups m (itemsWithCustomFields cart)
      = [(groupKeyOf ans, (itemsWithCustomFields cart).map (·.name), ans)] := by
    rw [hitems, buildGroups, buildGroupsAux]
    simp only [hi0, hansE, Bool.false_eq_true, if_false, insertGroup]
    rw [buildGroupsAux_const m ans hans rest [i0.name] ans hrest]
    simp
  have hnames : ((itemsWithCustomFields cart).map (·.name)).isEmpty = false := by
    rw [hitems]; rfl
  have hsec : sectionsOf (buildGroups m (itemsWithCustomFields cart))
      = [String.intercalate "\n" ((itemsWithCustomFields cart).map (·.name)),
         answerLineOf ans] := by
    rw [hgroups]
    simp [sectionsOf, hnames, hansE]
  have hhas : hasAnyCustomFields cart = true := by
    rw [hasAnyCustomFields, hitems]; rfl
  have hcs : customFieldsSectionOf cart m
      = String.intercalate "\n"
          [String.intercalate "\n" ((itemsWithCustomFields cart).map (·.name)),
           answerLineOf ans] := by
    rw [customFieldsSectionOf]
    simp [hhas, hsec]
  exact ⟨⟨hsec, hcs⟩, by decide⟩

/-- Witness for C2 (amended) at the two-item cart with shared answer
IGN = "X" stored under the composer's lookup keys. -/
theorem claim_C2_witness :
    sectionsOf (buildGroups c2Good (itemsWithCustomFields c2Cart))
      = [String.intercalate "\n" ((itemsWithCustomFields c2Cart).map (·.name)),
         answerLineOf [("IGN", "X")]] ∧
    countOccurrences (generateOrderMessage c2Cart 20 c2Pms (some "pm-1")
        (some "http://r") c2Good) "A\nB\nIGN: X" = 1 := by
  have h := claim_C2_amended c2Cart c2Good [("IGN", "X")] (by decide) (by decide) (by decide)
  exact ⟨h.1.1, h.2⟩

end ReinaShop
